import Mathlib

set_option maxRecDepth 4096

/-!
# FamilyLocator — verification of the geofence/notification core

Shallow embedding of the FamilyLocator server core:

* the distance engine (`calculateDistance` / `isWithinGeofence`,
  server/geofencing.ts), modelled over the real numbers;
* the geofence state tracker (`checkGeofenceTransitions`), modelled as a pure
  step function on an explicit association-list state, parameterised by the
  boolean inside-test that the source evaluates per place at the ping
  coordinates;
* the notification fan-out (`sendGeofenceNotification`), with storage
  failures while creating a recipient's notification made explicit through a
  `fails` predicate on recipient ids;
* the movement-notification throttle of `POST /api/locations`
  (server/routes.ts), including its per-recipient try/catch loop;
* the WebSocket broadcast hook (`broadcastNotification`);
* history compaction (`DatabaseStorage.getFamilyLocationHistory`,
  server/storage.ts);
* the periodic re-logger (`LocationLogger.logUserLocation`,
  server/locationLogger.ts).

JavaScript `Map` objects keyed by `userId.toString()` are modelled as
association lists keyed by the numeric id (`toString` on `Nat` is injective,
so the key space is preserved).  Timestamps are milliseconds as `Nat`.
-/

namespace FamilyLocator

/-! ## Data model (shared/schema.ts, narrowed to the fields the core reads) -/

/-- A user row: the core reads `id`, `email`, `firstName` and
`locationHistoryEnabled` (the latter is a nullable boolean column). -/
structure User where
  id : Nat
  email : String
  firstName : Option String
  locationHistoryEnabled : Option Bool
deriving DecidableEq, Repr

/-- A saved place.  The geometry (latitude/longitude) enters the geofence
tracker only through the per-place inside-test, which is modelled separately
(`calculateDistance` / `isWithinGeofence` over ℝ), so the tracker-level model
carries the id and name the notification path reads. -/
structure Place where
  id : Nat
  name : String
deriving DecidableEq, Repr

/-- Geofence transition direction. -/
inductive GeoAction where
  | entered
  | exited
deriving DecidableEq, Repr

/-- A call `sendGeofenceNotification(userId, place, action)` made by the
tracker: one transition event. -/
structure GeoEvent where
  place : Place
  action : GeoAction
deriving DecidableEq, Repr

/-- The structured `data` payload of a persisted notification record. -/
inductive NotifData where
  | geofence (triggeredByUserId : Option Nat) (placeId : Nat) (placeName : String)
      (action : GeoAction)
  | location (locationId : Nat) (userId : Nat)
deriving DecidableEq, Repr

/-- A persisted notification record (`storage.createNotification` argument). -/
structure Notification where
  userId : Nat
  type : String
  title : String
  message : String
  data : Option NotifData
  isRead : Bool
deriving DecidableEq, Repr

/-- The payload handed to the global `broadcastNotification` hook for a
geofence alert. -/
structure BroadcastMsg where
  type : String
  userId : Nat
  userName : String
  placeName : String
  action : GeoAction
  message : String
  timestamp : String
deriving DecidableEq, Repr

/-- The payload broadcast for a "moved" notification in `POST /api/locations`. -/
structure MovedBroadcast where
  type : String
  userId : Nat
  notificationType : String
  message : String
  timestamp : String
deriving DecidableEq, Repr

/-! ## JS `Map` / plain-object maps as association lists -/

/-- JS `map.get(k)` — first binding for the key, if any. -/
def mapLookup {α : Type} (m : List (Nat × α)) (k : Nat) : Option α :=
  (m.find? (fun e => e.1 == k)).map (fun e => e.2)

/-- JS `map.set(k, v)` — replace any binding for `k` by `v`. -/
def mapSet {α : Type} (m : List (Nat × α)) (k : Nat) (v : α) : List (Nat × α) :=
  m.filter (fun e => e.1 != k) ++ [(k, v)]

/-- The `userGeofenceStates` map: userId → place ids the user is currently inside. -/
abbrev GeoStates := List (Nat × List Nat)

/-! ## Distance engine (server/geofencing.ts, `calculateDistance`)

The source computes over IEEE doubles; the model computes over ℝ, which is
the mathematical content of the haversine formula.  `atan2` follows the
JavaScript `Math.atan2` case analysis. -/

noncomputable section

/-- JavaScript `Math.atan2 y x`. -/
def atan2 (y x : ℝ) : ℝ :=
  if 0 < x then Real.arctan (y / x)
  else if x < 0 then
    (if y < 0 then Real.arctan (y / x) - Real.pi else Real.arctan (y / x) + Real.pi)
  else
    (if 0 < y then Real.pi / 2 else if y < 0 then -(Real.pi / 2) else 0)

/-- The intermediate `a` of the haversine computation:
`sin²(dLat/2) + cos(lat1)·cos(lat2)·sin²(dLon/2)` with degree→radian
conversion as in the source. -/
def haversineA (lat1 lon1 lat2 lon2 : ℝ) : ℝ :=
  Real.sin ((lat2 - lat1) * Real.pi / 180 / 2) * Real.sin ((lat2 - lat1) * Real.pi / 180 / 2) +
    Real.cos (lat1 * Real.pi / 180) * Real.cos (lat2 * Real.pi / 180) *
      (Real.sin ((lon2 - lon1) * Real.pi / 180 / 2) *
        Real.sin ((lon2 - lon1) * Real.pi / 180 / 2))

/-- Source `calculateDistance(lat1, lon1, lat2, lon2)`: haversine distance in meters,
Earth radius 6371 km; `c = 2·atan2(√a, √(1−a))`, result `R·c·1000`. -/
def calculateDistance (lat1 lon1 lat2 lon2 : ℝ) : ℝ :=
  6371 *
    (2 * atan2 (Real.sqrt (haversineA lat1 lon1 lat2 lon2))
      (Real.sqrt (1 - haversineA lat1 lon1 lat2 lon2))) * 1000

/-- Source `isWithinGeofence(userLat, userLon, placeLat, placeLon, radiusMeters)`:
true iff the haversine distance is at most the radius (the source's default
radius is 20 meters, applied by every caller). -/
def isWithinGeofence (userLat userLon placeLat placeLon radiusMeters : ℝ) : Prop :=
  calculateDistance userLat userLon placeLat placeLon ≤ radiusMeters

end

theorem haversineA_same (lat lon : ℝ) : haversineA lat lon lat lon = 0 := by
  unfold haversineA
  simp

theorem haversineA_symm (lat1 lon1 lat2 lon2 : ℝ) :
    haversineA lat1 lon1 lat2 lon2 = haversineA lat2 lon2 lat1 lon1 := by
  unfold haversineA
  have h : ∀ x y : ℝ,
      Real.sin ((x - y) * Real.pi / 180 / 2) * Real.sin ((x - y) * Real.pi / 180 / 2)
        = Real.sin ((y - x) * Real.pi / 180 / 2) * Real.sin ((y - x) * Real.pi / 180 / 2) := by
    intro x y
    have hx : (x - y) * Real.pi / 180 / 2 = -((y - x) * Real.pi / 180 / 2) := by ring
    rw [hx, Real.sin_neg]
    ring
  rw [h lat2 lat1, h lon2 lon1]
  ring

theorem atan2_zero_one : atan2 0 1 = 0 := by
  unfold atan2
  rw [if_pos one_pos]
  simp

theorem calculateDistance_same (lat lon : ℝ) : calculateDistance lat lon lat lon = 0 := by
  unfold calculateDistance
  rw [haversineA_same]
  rw [Real.sqrt_zero]
  norm_num [atan2_zero_one]

theorem calculateDistance_comm (lat1 lon1 lat2 lon2 : ℝ) :
    calculateDistance lat1 lon1 lat2 lon2 = calculateDistance lat2 lon2 lat1 lon1 := by
  unfold calculateDistance
  rw [haversineA_symm]

/-- C9. `distanceMeters(a, a) = 0` for every coordinate `a`;
`distanceMeters(a, b) = distanceMeters(b, a)` (symmetry); and a place at
exactly the query coordinates is within the default 20-meter geofence
radius. -/
theorem distance_engine_properties :
    (∀ lat lon : ℝ, calculateDistance lat lon lat lon = 0) ∧
    (∀ lat1 lon1 lat2 lon2 : ℝ,
      calculateDistance lat1 lon1 lat2 lon2 = calculateDistance lat2 lon2 lat1 lon1) ∧
    (∀ lat lon : ℝ, isWithinGeofence lat lon lat lon 20) := by
  refine ⟨calculateDistance_same, calculateDistance_comm, ?_⟩
  intro lat lon
  unfold isWithinGeofence
  rw [calculateDistance_same]
  norm_num

/-! ## Geofence state tracker (server/geofencing.ts, `checkGeofenceTransitions`)

The tracker is parameterised by `inside : Place → Bool`, standing for the
boolean `isWithinGeofence(newLat, newLon, place.latitude, place.longitude)`
the source evaluates for each candidate place at the ping's coordinates.
`storage.getFamilyPlaces` is passed as an `Except`: `Except.error` models the
storage call throwing, which the source's surrounding `try/catch` absorbs. -/

/-- String for a `GeoAction`, as interpolated into messages and types. -/
def actionString : GeoAction → String
  | GeoAction.entered => "entered"
  | GeoAction.exited => "exited"

/-- The transition decision the per-place loop body makes: an `entered` event
when inside now but not before, an `exited` event when outside now but inside
before, nothing otherwise. -/
def geoEventFor (inside : Place → Bool) (currentGeofences : List Nat) (p : Place) :
    Option GeoEvent :=
  if inside p && !(currentGeofences.contains p.id) then some ⟨p, GeoAction.entered⟩
  else if !(inside p) && currentGeofences.contains p.id then some ⟨p, GeoAction.exited⟩
  else none

/-- Source `checkGeofenceTransitions(userId, newLat, newLon)`: one geofence check.
Returns the updated `userGeofenceStates` and the list of
`sendGeofenceNotification` calls made, in candidate-list order.  A storage
failure, or an empty/absent candidate list, returns early without touching the
stored state. -/
def checkGeofenceTransitions (inside : Place → Bool)
    (familyPlaces : Except Unit (List Place)) (userId : Nat) (st : GeoStates) :
    GeoStates × List GeoEvent :=
  match familyPlaces with
  | Except.error _ => (st, [])
  | Except.ok places =>
    if places.isEmpty then (st, [])
    else
      let currentGeofences := (mapLookup st userId).getD []
      let newGeofences := (places.filter inside).map Place.id
      let events := places.filterMap (geoEventFor inside currentGeofences)
      (mapSet st userId newGeofences, events)

/-- One sequential geofence check: the position (as its inside-test) and the
candidate place list fetched for it. -/
abbrev GeoCheck := (Place → Bool) × List Place

/-- A sequence of sequential geofence checks for one user, threading the
stored state and concatenating the emitted events. -/
def runChecks (userId : Nat) : List GeoCheck → GeoStates → GeoStates × List GeoEvent
  | [], st => (st, [])
  | c :: rest, st =>
    let r1 := checkGeofenceTransitions c.1 (Except.ok c.2) userId st
    let r2 := runChecks userId rest r1.1
    (r2.1, r1.2 ++ r2.2)

/-- The events a single place `p` should see along a run, per the spec's dwell
invariant: one `entered` at each outside→inside edge of the inside-bit
sequence, one `exited` at each inside→outside edge, nothing on repeats. -/
def edgeEvents (p : Place) : Bool → List Bool → List GeoEvent
  | _, [] => []
  | was, b :: rest =>
    (if b && !was then [⟨p, GeoAction.entered⟩]
     else if !b && was then [⟨p, GeoAction.exited⟩]
     else []) ++ edgeEvents p b rest

/-! ### Association-list map lemmas -/

theorem find?_append_key {α : Type} (l : List (Nat × α)) (k : Nat) (v : α)
    (hl : ∀ e ∈ l, (e.1 == k) = false) :
    (l ++ [(k, v)]).find? (fun e => e.1 == k) = some (k, v) := by
  induction l with
  | nil => simp [List.find?]
  | cons e rest ih =>
    have he := hl e (by simp)
    simp only [List.cons_append, List.find?, he]
    exact ih (fun x hx => hl x (by simp [hx]))

theorem mapLookup_set_self {α : Type} (m : List (Nat × α)) (k : Nat) (v : α) :
    mapLookup (mapSet m k v) k = some v := by
  unfold mapLookup mapSet
  rw [find?_append_key]
  · rfl
  · intro e he
    have := List.of_mem_filter he
    simpa [bne] using this

/-! ### Per-check lemmas for one tracked place -/

theorem geoEventFor_place (inside : Place → Bool) (cur : List Nat) (p : Place)
    (e : GeoEvent) (h : geoEventFor inside cur p = some e) : e.place = p := by
  unfold geoEventFor at h
  split at h
  · cases h
    rfl
  · split at h
    · cases h
      rfl
    · cases h

theorem eventsFor_nil_of_id_notMem (inside : Place → Bool) (cur : List Nat) (i : Nat)
    (l : List Place) (h : i ∉ l.map Place.id) :
    (l.filterMap (geoEventFor inside cur)).filter (fun e => e.place.id == i) = [] := by
  induction l with
  | nil => rfl
  | cons q rest ih =>
    have hqi : q.id ≠ i := by
      intro hq
      exact h (by simp [hq])
    have hrest : i ∉ rest.map Place.id := fun hm => h (by simp [hm])
    cases hq : geoEventFor inside cur q with
    | none => simpa [List.filterMap_cons, hq] using ih hrest
    | some e =>
      have hep : e.place = q := geoEventFor_place _ _ _ _ hq
      have : (e.place.id == i) = false := by
        simp [hep, hqi]
      simp [List.filterMap_cons, hq, List.filter_cons, this, ih hrest]

theorem natContains_iff (l : List Nat) (a : Nat) : l.contains a = true ↔ a ∈ l := by
  simp

theorem natContains_eq_false (l : List Nat) (a : Nat) (h : a ∉ l) : l.contains a = false := by
  cases hc : l.contains a
  · rfl
  · exact absurd ((natContains_iff l a).mp hc) h

theorem currentIds_notMem (inside : Place → Bool) (l : List Place) (i : Nat)
    (h : i ∉ l.map Place.id) : ((l.filter inside).map Place.id).contains i = false := by
  apply natContains_eq_false
  intro hm
  rcases List.mem_map.mp hm with ⟨q, hq, hqi⟩
  exact h (List.mem_map.mpr ⟨q, List.mem_of_mem_filter hq, hqi⟩)

theorem currentIds_contains (inside : Place → Bool) (l : List Place) (p : Place)
    (hnd : (l.map Place.id).Nodup) (hp : p ∈ l) :
    ((l.filter inside).map Place.id).contains p.id = inside p := by
  cases hin : inside p
  · apply natContains_eq_false
    intro hm
    rcases List.mem_map.mp hm with ⟨q, hq, hqi⟩
    have hq' : q ∈ l := List.mem_of_mem_filter hq
    have : q = p := List.inj_on_of_nodup_map hnd hq' hp hqi
    subst this
    rw [List.mem_filter] at hq
    rw [hq.2] at hin
    cases hin
  · have hm : p.id ∈ (l.filter inside).map Place.id :=
      List.mem_map.mpr ⟨p, List.mem_filter.mpr ⟨hp, hin⟩, rfl⟩
    exact (natContains_iff _ _).mpr hm

theorem eventsFor_eq (inside : Place → Bool) (cur : List Nat) (l : List Place) (p : Place)
    (hnd : (l.map Place.id).Nodup) (hp : p ∈ l) :
    (l.filterMap (geoEventFor inside cur)).filter (fun e => e.place.id == p.id)
      = (geoEventFor inside cur p).toList := by
  induction l with
  | nil => cases hp
  | cons q rest ih =>
    have hnd' : (rest.map Place.id).Nodup := by
      simpa using hnd.of_cons
    by_cases hq : q.id = p.id
    · have hqp : q = p := by
        rcases List.mem_cons.mp hp with h | h
        · exact (h ▸ rfl)
        · exfalso
          have : p.id ∈ rest.map Place.id := List.mem_map.mpr ⟨p, h, rfl⟩
          have hqmem : q.id ∈ rest.map Place.id := hq ▸ this
          simp only [List.map_cons, List.nodup_cons] at hnd
          exact hnd.1 hqmem
      subst hqp
      have hrest : q.id ∉ rest.map Place.id := by
        simp only [List.map_cons, List.nodup_cons] at hnd
        exact hnd.1
      have hrest0 := eventsFor_nil_of_id_notMem inside cur q.id rest hrest
      cases he : geoEventFor inside cur q with
      | none => simp [List.filterMap_cons, he, hrest0]
      | some e =>
        have hep : e.place = q := geoEventFor_place _ _ _ _ he
        simp [List.filterMap_cons, he, List.filter_cons, hep, hrest0]
    · have hp' : p ∈ rest := by
        rcases List.mem_cons.mp hp with h | h
        · exact absurd (congrArg Place.id h.symm) hq
        · exact h
      cases he : geoEventFor inside cur q with
      | none => simpa [List.filterMap_cons, he] using ih hnd' hp'
      | some e =>
        have hep : e.place = q := geoEventFor_place _ _ _ _ he
        have hne : (e.place.id == p.id) = false := by simp [hep, hq]
        simpa [List.filterMap_cons, he, List.filter_cons, hne] using ih hnd' hp'

theorem geoEventFor_toList (inside : Place → Bool) (cur : List Nat) (p : Place) :
    (geoEventFor inside cur p).toList
      = (if inside p && !(cur.contains p.id) then [⟨p, GeoAction.entered⟩]
         else if !(inside p) && cur.contains p.id then [⟨p, GeoAction.exited⟩]
         else []) := by
  unfold geoEventFor
  cases hin : inside p <;> cases hc : cur.contains p.id <;> simp [hin, hc]

theorem checkStep_not_empty (places : List Place) (p : Place) (hp : p ∈ places) :
    places.isEmpty = false := by
  cases places
  · cases hp
  · rfl

theorem checkStep_eq (inside : Place → Bool) (places : List Place) (u : Nat) (st : GeoStates)
    (hne : places.isEmpty = false) :
    checkGeofenceTransitions inside (Except.ok places) u st
      = (mapSet st u ((places.filter inside).map Place.id),
         places.filterMap (geoEventFor inside ((mapLookup st u).getD []))) := by
  simp [checkGeofenceTransitions, hne]

theorem checkStep_eventsFor (inside : Place → Bool) (places : List Place) (u : Nat)
    (st : GeoStates) (p : Place) (hnd : (places.map Place.id).Nodup) (hp : p ∈ places) :
    (checkGeofenceTransitions inside (Except.ok places) u st).2.filter
        (fun e => e.place.id == p.id)
      = (geoEventFor inside ((mapLookup st u).getD []) p).toList ∧
    ((mapLookup (checkGeofenceTransitions inside (Except.ok places) u st).1 u).getD
        []).contains p.id = inside p := by
  rw [checkStep_eq inside places u st (checkStep_not_empty places p hp)]
  constructor
  · exact eventsFor_eq inside _ places p hnd hp
  · rw [mapLookup_set_self]
    exact currentIds_contains inside places p hnd hp

/-- C1.  For a place `p` that occurs (with a unique id) in the candidate
list of every check of a sequence of sequential geofence checks, the events
emitted for `p` are exactly the edge events of its inside-bit sequence:
exactly one `entered` at each check that finds the user inside after being
outside, exactly one `exited` at each check that finds the user outside after
being inside, and nothing at checks that repeat the previous side — in
particular, re-checking the same position immediately after entering emits no
second `entered` notification. -/
theorem runChecks_edgeEvents (u : Nat) (p : Place) (checks : List GeoCheck) (st : GeoStates)
    (h : ∀ c ∈ checks, p ∈ c.2 ∧ (c.2.map Place.id).Nodup) :
    (runChecks u checks st).2.filter (fun e => e.place.id == p.id)
      = edgeEvents p (((mapLookup st u).getD []).contains p.id)
          (checks.map (fun c => c.1 p)) := by
  induction checks generalizing st with
  | nil => rfl
  | cons c rest ih =>
    obtain ⟨hp, hnd⟩ := h c (by simp)
    have hstep := checkStep_eventsFor c.1 c.2 u st p hnd hp
    have hrun : runChecks u (c :: rest) st
        = ((runChecks u rest (checkGeofenceTransitions c.1 (Except.ok c.2) u st).1).1,
           (checkGeofenceTransitions c.1 (Except.ok c.2) u st).2 ++
             (runChecks u rest (checkGeofenceTransitions c.1 (Except.ok c.2) u st).1).2) :=
      rfl
    rw [hrun]
    show ((checkGeofenceTransitions c.1 (Except.ok c.2) u st).2 ++
        (runChecks u rest (checkGeofenceTransitions c.1 (Except.ok c.2) u st).1).2).filter
          (fun e => e.place.id == p.id) = _
    rw [List.filter_append, hstep.1,
      ih (checkGeofenceTransitions c.1 (Except.ok c.2) u st).1
        (fun c' hc' => h c' (by simp [hc'])), hstep.2]
    show _ = (if c.1 p && !(((mapLookup st u).getD []).contains p.id)
        then [⟨p, GeoAction.entered⟩]
        else if !(c.1 p) && ((mapLookup st u).getD []).contains p.id
        then [⟨p, GeoAction.exited⟩]
        else []) ++ edgeEvents p (c.1 p) (rest.map (fun c => c.1 p))
    rw [geoEventFor_toList]

/-- C1 witness.  A user enters place 1 and immediately re-checks the same
position: the run emits the single `entered` event and no duplicate. -/
theorem runChecks_edgeEvents_witness :
    (∀ c ∈ ([((fun _ => true : Place → Bool), [(⟨1, "Home"⟩ : Place)]),
              ((fun _ => true : Place → Bool), [(⟨1, "Home"⟩ : Place)])] : List GeoCheck),
        (⟨1, "Home"⟩ : Place) ∈ c.2 ∧ (c.2.map Place.id).Nodup) ∧
    ((runChecks 1 ([((fun _ => true : Place → Bool), [(⟨1, "Home"⟩ : Place)]),
          ((fun _ => true : Place → Bool), [(⟨1, "Home"⟩ : Place)])] : List GeoCheck)
        ([] : GeoStates)).2.filter
          (fun e => e.place.id == (⟨1, "Home"⟩ : Place).id)
      = edgeEvents ⟨1, "Home"⟩
          (((mapLookup ([] : GeoStates) 1).getD []).contains (⟨1, "Home"⟩ : Place).id)
          (([((fun _ => true : Place → Bool), [(⟨1, "Home"⟩ : Place)]),
              ((fun _ => true : Place → Bool), [(⟨1, "Home"⟩ : Place)])] : List GeoCheck).map
            (fun c => c.1 ⟨1, "Home"⟩))) ∧
    edgeEvents (⟨1, "Home"⟩ : Place) false [true, true]
      = [⟨⟨1, "Home"⟩, GeoAction.entered⟩] :=
  ⟨by decide, runChecks_edgeEvents 1 ⟨1, "Home"⟩ _ _ (by decide), by decide⟩

/-! ### Set-difference characterization of a single check (C3) -/

theorem natContains_false_iff (l : List Nat) (a : Nat) : l.contains a = false ↔ a ∉ l := by
  constructor
  · intro h hm
    rw [(natContains_iff l a).mpr hm] at h
    cases h
  · exact natContains_eq_false l a

theorem eventsEntered_ids (inside : Place → Bool) (cur : List Nat) (l : List Place) :
    ((l.filterMap (geoEventFor inside cur)).filter
        (fun e => e.action == GeoAction.entered)).map (fun e => e.place.id)
      = ((l.filter inside).map Place.id).filter (fun i => !(cur.contains i)) := by
  induction l with
  | nil => rfl
  | cons q rest ih =>
    by_cases hc : q.id ∈ cur <;> cases hin : inside q <;>
      simp [List.filterMap_cons, geoEventFor, hin, hc, List.filter_cons, ih]

theorem eventsExited_ids_raw (inside : Place → Bool) (cur : List Nat) (l : List Place) :
    ((l.filterMap (geoEventFor inside cur)).filter
        (fun e => e.action == GeoAction.exited)).map (fun e => e.place.id)
      = (l.filter (fun q => !(inside q) && cur.contains q.id)).map Place.id := by
  induction l with
  | nil => rfl
  | cons q rest ih =>
    by_cases hc : q.id ∈ cur <;> cases hin : inside q <;>
      simp [List.filterMap_cons, geoEventFor, hin, hc, List.filter_cons, ih]

theorem filter_ids_by_inside (cur currAll : List Nat) (inside : Place → Bool)
    (l : List Place) (h : ∀ q ∈ l, currAll.contains q.id = inside q) :
    (l.map Place.id).filter (fun i => cur.contains i && !(currAll.contains i))
      = (l.filter (fun q => !(inside q) && cur.contains q.id)).map Place.id := by
  induction l with
  | nil => rfl
  | cons q rest ih =>
    have hq := h q (by simp)
    have ih' := ih (fun x hx => h x (by simp [hx]))
    cases hin : inside q <;> rw [hin] at hq
    · have hq' : q.id ∉ currAll := (natContains_false_iff currAll q.id).mp hq
      by_cases hc : q.id ∈ cur <;>
        simpa [List.filter_cons, hq', hin, hc] using ih'
    · have hq' : q.id ∈ currAll := (natContains_iff currAll q.id).mp hq
      by_cases hc : q.id ∈ cur <;>
        simpa [List.filter_cons, hq', hin, hc] using ih'

/-- C3 (amended).  A single geofence check with a duplicate-free nonempty
candidate list computes `entered = currentInside − previousInside` and
`exited = (previousInside ∩ candidates) − currentInside` — stored place ids
absent from the candidate list produce no `exited` event; they are dropped
silently — and replaces the stored set for the user with `currentInside`;
with an empty candidate list the check is a no-op that returns no transitions
and leaves the stored state untouched. -/
theorem checkGeofenceTransitions_setDifference (inside : Place → Bool) (places : List Place)
    (u : Nat) (st : GeoStates) (hnd : (places.map Place.id).Nodup) :
    (places ≠ [] →
      (checkGeofenceTransitions inside (Except.ok places) u st).1
        = mapSet st u ((places.filter inside).map Place.id) ∧
      ((checkGeofenceTransitions inside (Except.ok places) u st).2.filter
          (fun e => e.action == GeoAction.entered)).map (fun e => e.place.id)
        = ((places.filter inside).map Place.id).filter
            (fun i => !(((mapLookup st u).getD []).contains i)) ∧
      ((checkGeofenceTransitions inside (Except.ok places) u st).2.filter
          (fun e => e.action == GeoAction.exited)).map (fun e => e.place.id)
        = (places.map Place.id).filter
            (fun i => ((mapLookup st u).getD []).contains i &&
              !(((places.filter inside).map Place.id).contains i))) ∧
    (places = [] → checkGeofenceTransitions inside (Except.ok places) u st = (st, [])) := by
  constructor
  · intro hne
    have hempty : places.isEmpty = false := by
      cases places
      · exact absurd rfl hne
      · rfl
    rw [checkStep_eq inside places u st hempty]
    refine ⟨rfl, eventsEntered_ids inside _ places, ?_⟩
    rw [eventsExited_ids_raw inside _ places]
    exact (filter_ids_by_inside _ _ inside places
      (fun q hq => currentIds_contains inside places q hnd hq)).symm
  · intro h
    subst h
    rfl

/-- C3 witness.  User 1 is recorded inside place 1; a check against the
single far-away candidate place 7 produces no `entered`, records the exit of
nothing (place 1 is not a candidate), and overwrites the stored set with the
empty current set. -/
theorem checkGeofenceTransitions_setDifference_witness :
    (([(⟨7, "B"⟩ : Place)].map Place.id).Nodup ∧ ([(⟨7, "B"⟩ : Place)] : List Place) ≠ []) ∧
    (checkGeofenceTransitions (fun _ => false) (Except.ok [(⟨7, "B"⟩ : Place)]) 1
          ([(1, [1])] : GeoStates)).1
        = mapSet ([(1, [1])] : GeoStates) 1
            ((([(⟨7, "B"⟩ : Place)] : List Place).filter (fun _ => false)).map Place.id) ∧
      ((checkGeofenceTransitions (fun _ => false) (Except.ok [(⟨7, "B"⟩ : Place)]) 1
            ([(1, [1])] : GeoStates)).2.filter
          (fun e => e.action == GeoAction.entered)).map (fun e => e.place.id)
        = ((([(⟨7, "B"⟩ : Place)] : List Place).filter (fun _ => false)).map Place.id).filter
            (fun i => !(((mapLookup ([(1, [1])] : GeoStates) 1).getD []).contains i)) ∧
      ((checkGeofenceTransitions (fun _ => false) (Except.ok [(⟨7, "B"⟩ : Place)]) 1
            ([(1, [1])] : GeoStates)).2.filter
          (fun e => e.action == GeoAction.exited)).map (fun e => e.place.id)
        = (([(⟨7, "B"⟩ : Place)] : List Place).map Place.id).filter
            (fun i => ((mapLookup ([(1, [1])] : GeoStates) 1).getD []).contains i &&
              !((([(⟨7, "B"⟩ : Place)] : List Place).filter
                  (fun _ => false)).map Place.id).contains i) :=
  ⟨⟨by decide, by decide⟩,
    (checkGeofenceTransitions_setDifference (fun _ => false) [(⟨7, "B"⟩ : Place)] 1
        ([(1, [1])] : GeoStates) (by decide)).1 (by decide)⟩

/-- C3 counterexample.  With stored set `{1}` and the single candidate
place 7 checked outside, the claim's formula `exited = previousInside −
currentInside` demands an `exited` event for place id 1 (`1 ∈ previousInside`,
`1 ∉ currentInside`), but the check emits no event at all: stored ids missing
from the candidate list are dropped without an `exited` notification. -/
theorem checkGeofenceTransitions_exited_counterexample :
    (checkGeofenceTransitions (fun _ => false) (Except.ok [(⟨7, "B"⟩ : Place)]) 1
        ([(1, [1])] : GeoStates)).2 = [] ∧
    ((mapLookup ([(1, [1])] : GeoStates) 1).getD []).contains 1 = true ∧
    ((([(⟨7, "B"⟩ : Place)] : List Place).filter (fun _ => false)).map Place.id).contains 1
      = false := by
  decide

/-- C7.  A storage failure while fetching the candidate places is absorbed
by the check's try/catch: the check returns normally with no transition events
and the stored geofence state untouched, and a subsequent check starts from
the same state as if the failed check had never run. -/
theorem checkGeofenceTransitions_storage_failure (inside : Place → Bool) (u : Nat)
    (st : GeoStates) (e : Unit) :
    checkGeofenceTransitions inside (Except.error e) u st = (st, []) ∧
    (∀ (inside2 : Place → Bool) (fp2 : Except Unit (List Place)),
      checkGeofenceTransitions inside2 fp2 u
          (checkGeofenceTransitions inside (Except.error e) u st).1
        = checkGeofenceTransitions inside2 fp2 u st) :=
  ⟨rfl, fun _ _ => rfl⟩

/-! ## Notification dispatcher (server/geofencing.ts, `sendGeofenceNotification`)

`storage.createNotification` can throw; which recipient's creation throws is
modelled by a `fails` predicate on recipient user ids.  The surrounding
`try/catch` spans the whole fan-out, so the first throw ends the function
(already-created notifications persist), and the broadcast — modelled as the
returned `Option BroadcastMsg` — only happens when nothing threw. -/

/-- JavaScript `a || b` on a nullable string: the fallback when the first
operand is absent or empty (falsy). -/
def jsOr (s : Option String) (fallback : String) : String :=
  match s with
  | some v => if v = "" then fallback else v
  | none => fallback

/-- Source `user.firstName || user.email` — the display-name resolution used in all
notification messages. -/
def displayName (u : User) : String := jsOr u.firstName u.email

/-- The notification record created for one family member on a geofence
transition. -/
def mkFamilyGeofenceNotification (user : User) (place : Place) (action : GeoAction)
    (m : User) : Notification :=
  { userId := m.id
    type := "geofence_" ++ actionString action
    title := "Location Alert"
    message := displayName user ++ " has " ++ actionString action ++ " " ++ place.name
    data := some (NotifData.geofence (some user.id) place.id place.name action)
    isRead := false }

/-- The mover's own record for a geofence transition. -/
def mkSelfGeofenceNotification (user : User) (place : Place) (action : GeoAction) :
    Notification :=
  { userId := user.id
    type := "geofence_" ++ actionString action
    title := "Location Alert"
    message := "You " ++ actionString action ++ " " ++ place.name
    data := some (NotifData.geofence none place.id place.name action)
    isRead := false }

/-- The payload handed to the `broadcastNotification` hook for a geofence
transition. -/
def mkGeofenceBroadcast (user : User) (place : Place) (action : GeoAction)
    (nowIso : String) : BroadcastMsg :=
  { type := "geofence"
    userId := user.id
    userName := jsOr user.firstName user.email
    placeName := place.name
    action := action
    message := displayName user ++ " has " ++ actionString action ++ " " ++ place.name
    timestamp := nowIso }

/-- The family-member loop of `sendGeofenceNotification`: create notifications
in list order until a creation throws.  Returns the created records and
whether the loop ran to completion. -/
def createNotificationsLoop (fails : Nat → Bool) (mk : User → Notification) :
    List User → List Notification × Bool
  | [] => ([], true)
  | m :: rest =>
    if fails m.id then ([], false)
    else
      let r := createNotificationsLoop fails mk rest
      (mk m :: r.1, r.2)

/-- Source `sendGeofenceNotification(userId, place, action)`: look up the mover
(nothing happens when absent), create one record per family member, then the
mover's self-record, then broadcast.  A throw anywhere is caught by the
function-level `try/catch`, so everything after the failing creation is
skipped. -/
def sendGeofenceNotification (fails : Nat → Bool) (userOpt : Option User)
    (familyMembers : List User) (place : Place) (action : GeoAction) (nowIso : String) :
    List Notification × Option BroadcastMsg :=
  match userOpt with
  | none => ([], none)
  | some user =>
    let r := createNotificationsLoop fails
      (mkFamilyGeofenceNotification user place action) familyMembers
    if !r.2 then (r.1, none)
    else if fails user.id then (r.1, none)
    else (r.1 ++ [mkSelfGeofenceNotification user place action],
      some (mkGeofenceBroadcast user place action nowIso))

/-! ## Movement-notification throttle (server/routes.ts, `POST /api/locations`)

`global.lastLocationNotification` is the throttle map (absent entry reads as
`0`); the notification-creation loop there has a per-member `try/catch`, so a
failing member is skipped and the loop continues. -/

/-- The "moved" record created for one family member. -/
def mkMovedNotification (userName : String) (moverId : Nat) (locationId : Nat)
    (m : User) : Notification :=
  { userId := m.id
    type := "location"
    title := "Location Update"
    message := userName ++ " updated their location"
    data := some (NotifData.location locationId moverId)
    isRead := false }

/-- The per-member WebSocket payload for a "moved" notification. -/
def mkMovedBroadcast (userName : String) (nowIso : String) (m : User) : MovedBroadcast :=
  { type := "notification"
    userId := m.id
    notificationType := "location"
    message := userName ++ " updated their location"
    timestamp := nowIso }

/-- The per-member loop with its per-member `try/catch`: a member whose
creation throws contributes neither a record nor a broadcast, and the loop
continues with the remaining members. -/
def movedLoop (fails : Nat → Bool) (mkN : User → Notification)
    (mkB : User → MovedBroadcast) : List User → List Notification × List MovedBroadcast
  | [] => ([], [])
  | m :: rest =>
    let r := movedLoop fails mkN mkB rest
    if fails m.id then r else (mkN m :: r.1, mkB m :: r.2)

/-- The throttle-gated "moved" fan-out of `POST /api/locations`: read
`lastLocationNotification[moverId]` (`0` if absent); when strictly more than
5 minutes have passed and the family is non-empty, stamp the map with `now`
and run the per-member loop; otherwise do nothing. -/
def movedNotificationStep (fails : Nat → Bool) (userName : String) (moverId : Nat)
    (familyMembers : List User) (lastMap : List (Nat × Nat)) (now : Nat)
    (locationId : Nat) (nowIso : String) :
    List (Nat × Nat) × List Notification × List MovedBroadcast :=
  let lastNotificationTime := (mapLookup lastMap moverId).getD 0
  if 5 * 60 * 1000 < now - lastNotificationTime ∧ familyMembers ≠ [] then
    (mapSet lastMap moverId now,
      movedLoop fails (mkMovedNotification userName moverId locationId)
        (mkMovedBroadcast userName nowIso) familyMembers)
  else (lastMap, [], [])

/-! ### Failure semantics of the fan-out (C2) -/

theorem createNotificationsLoop_fail (fails : Nat → Bool) (mk : User → Notification)
    (pre post : List User) (m : User) (hpre : ∀ x ∈ pre, fails x.id = false)
    (hm : fails m.id = true) :
    createNotificationsLoop fails mk (pre ++ m :: post) = (pre.map mk, false) := by
  induction pre with
  | nil => simp [createNotificationsLoop, hm]
  | cons x rest ih =>
    have hx := hpre x (by simp)
    have ih' := ih (fun y hy => hpre y (by simp [hy]))
    simp [createNotificationsLoop, hx, ih']

theorem movedLoop_filter (fails : Nat → Bool) (mkN : User → Notification)
    (mkB : User → MovedBroadcast) (l : List User) :
    movedLoop fails mkN mkB l
      = ((l.filter (fun x => !(fails x.id))).map mkN,
         (l.filter (fun x => !(fails x.id))).map mkB) := by
  induction l with
  | nil => rfl
  | cons m rest ih =>
    cases hm : fails m.id <;> simp [movedLoop, hm, ih, List.filter_cons]

/-- C2 (amended).  A failure creating one recipient's geofence
notification is caught (the fan-out returns normally), but by the
function-level `try/catch` of `sendGeofenceNotification`: the recipients
before the failing one keep their already-created notifications, while every
recipient after it, the mover's self-notification and the broadcast are all
skipped.  Per-recipient isolation does hold in the "moved"-notification loop
of `POST /api/locations`: there a failing recipient is skipped and every
other family member still gets its notification and broadcast. -/
theorem notification_failure_semantics :
    (∀ (fails : Nat → Bool) (user : User) (pre post : List User) (m : User)
        (place : Place) (action : GeoAction) (nowIso : String),
      (∀ x ∈ pre, fails x.id = false) → fails m.id = true →
      sendGeofenceNotification fails (some user) (pre ++ m :: post) place action nowIso
        = (pre.map (mkFamilyGeofenceNotification user place action), none)) ∧
    (∀ (fails : Nat → Bool) (userName : String) (moverId : Nat) (members : List User)
        (lastMap : List (Nat × Nat)) (now locationId : Nat) (nowIso : String),
      5 * 60 * 1000 < now - (mapLookup lastMap moverId).getD 0 → members ≠ [] →
      (movedNotificationStep fails userName moverId members lastMap now locationId
          nowIso).2.1
        = (members.filter (fun x => !(fails x.id))).map
            (mkMovedNotification userName moverId locationId)) := by
  constructor
  · intro fails user pre post m place action nowIso hpre hm
    have hloop := createNotificationsLoop_fail fails
      (mkFamilyGeofenceNotification user place action) pre post m hpre hm
    simp [sendGeofenceNotification, hloop]
  · intro fails userName moverId members lastMap now locationId nowIso hthr hne
    unfold movedNotificationStep
    rw [if_pos ⟨hthr, hne⟩, movedLoop_filter]

/-- C2 counterexample.  Mover 1 has family members 11 and 12; creating the
notification for member 11 throws.  The claim requires member 12's
notification and the broadcast to still happen, but the fan-out produces no
notification at all (none for 12, no self-notification) and no broadcast. -/
theorem notification_failure_counterexample :
    (sendGeofenceNotification (fun i => i == 11)
        (some ⟨1, "ann@example.com", some "Ann", none⟩)
        [⟨11, "f1@example.com", none, none⟩, ⟨12, "f2@example.com", none, none⟩]
        ⟨5, "Home"⟩ GeoAction.entered "t0").1.filter (fun n => n.userId == 12) = [] ∧
    (sendGeofenceNotification (fun i => i == 11)
        (some ⟨1, "ann@example.com", some "Ann", none⟩)
        [⟨11, "f1@example.com", none, none⟩, ⟨12, "f2@example.com", none, none⟩]
        ⟨5, "Home"⟩ GeoAction.entered "t0").2 = none := by
  decide

/-- C2 witness.  Member 12 (of 11, 12, 13) fails: the geofence fan-out
keeps only member 11's record and drops the broadcast, while the "moved" loop
still notifies members 11 and 13. -/
theorem notification_failure_semantics_witness :
    ((∀ x ∈ ([⟨11, "f1@example.com", none, none⟩] : List User), ((fun i => i == 12) x.id) = false) ∧
      ((fun i => i == 12) (⟨12, "f2@example.com", none, none⟩ : User).id) = true ∧
      (5 * 60 * 1000 < 400000 - (mapLookup ([] : List (Nat × Nat)) 1).getD 0) ∧
      ([(⟨11, "f1@example.com", none, none⟩ : User), ⟨12, "f2@example.com", none, none⟩,
        ⟨13, "f3@example.com", none, none⟩] : List User) ≠ []) ∧
    sendGeofenceNotification (fun i => i == 12) (some ⟨1, "ann@example.com", some "Ann", none⟩)
        ([⟨11, "f1@example.com", none, none⟩] ++
          (⟨12, "f2@example.com", none, none⟩ : User) :: [⟨13, "f3@example.com", none, none⟩])
        ⟨5, "Home"⟩ GeoAction.entered "t0"
      = ([(⟨11, "f1@example.com", none, none⟩ : User)].map
          (mkFamilyGeofenceNotification ⟨1, "ann@example.com", some "Ann", none⟩ ⟨5, "Home"⟩
            GeoAction.entered), none) ∧
    (movedNotificationStep (fun i => i == 12) "Ann" 1
        [⟨11, "f1@example.com", none, none⟩, ⟨12, "f2@example.com", none, none⟩,
          ⟨13, "f3@example.com", none, none⟩] [] 400000 9 "t0").2.1
      = (([(⟨11, "f1@example.com", none, none⟩ : User), ⟨12, "f2@example.com", none, none⟩,
            ⟨13, "f3@example.com", none, none⟩] : List User).filter
          (fun x => !((fun i => i == 12) x.id))).map (mkMovedNotification "Ann" 1 9) :=
  ⟨⟨by decide, by decide, by decide, by decide⟩,
    notification_failure_semantics.1 (fun i => i == 12) ⟨1, "ann@example.com", some "Ann", none⟩
      [⟨11, "f1@example.com", none, none⟩] [⟨13, "f3@example.com", none, none⟩]
      ⟨12, "f2@example.com", none, none⟩ ⟨5, "Home"⟩ GeoAction.entered "t0"
      (by decide) (by decide),
    notification_failure_semantics.2 (fun i => i == 12) "Ann" 1
      [⟨11, "f1@example.com", none, none⟩, ⟨12, "f2@example.com", none, none⟩,
        ⟨13, "f3@example.com", none, none⟩] [] 400000 9 "t0" (by decide) (by decide)⟩

/-! ### The 5-minute "moved" throttle (C4) -/

theorem movedLoop_noFail (mkN : User → Notification) (mkB : User → MovedBroadcast)
    (l : List User) :
    movedLoop (fun _ => false) mkN mkB l = (l.map mkN, l.map mkB) := by
  induction l with
  | nil => rfl
  | cons m rest ih => simp [movedLoop, ih]

/-- C4 (amended).  With no storage failures, "moved" notifications are
created for the family members iff strictly more than 5 minutes have passed
since the stored `lastNotified[moverId]` (an absent record reads as `0`) and
the family scope is non-empty; exactly then `lastNotified[moverId]` is set to
`now`; consequently a second ping within the 5-minute window after a
notifying ping produces no "moved" notifications. -/
theorem movedNotificationStep_throttle :
    (∀ (userName : String) (moverId : Nat) (members : List User)
        (lastMap : List (Nat × Nat)) (now locationId : Nat) (nowIso : String),
      5 * 60 * 1000 < now - (mapLookup lastMap moverId).getD 0 → members ≠ [] →
      movedNotificationStep (fun _ => false) userName moverId members lastMap now
          locationId nowIso
        = (mapSet lastMap moverId now,
           members.map (mkMovedNotification userName moverId locationId),
           members.map (mkMovedBroadcast userName nowIso))) ∧
    (∀ (userName : String) (moverId : Nat) (members : List User)
        (lastMap : List (Nat × Nat)) (now locationId : Nat) (nowIso : String),
      ¬(5 * 60 * 1000 < now - (mapLookup lastMap moverId).getD 0 ∧ members ≠ []) →
      movedNotificationStep (fun _ => false) userName moverId members lastMap now
          locationId nowIso = (lastMap, [], [])) ∧
    (∀ (userName : String) (moverId : Nat) (members : List User)
        (lastMap : List (Nat × Nat)) (now locationId : Nat) (nowIso : String)
        (now2 locationId2 : Nat) (nowIso2 : String),
      5 * 60 * 1000 < now - (mapLookup lastMap moverId).getD 0 → members ≠ [] →
      now2 - now ≤ 5 * 60 * 1000 →
      (movedNotificationStep (fun _ => false) userName moverId members
          (movedNotificationStep (fun _ => false) userName moverId members lastMap now
            locationId nowIso).1 now2 locationId2 nowIso2).2.1 = []) := by
  refine ⟨?_, ?_, ?_⟩
  · intro userName moverId members lastMap now locationId nowIso hthr hne
    unfold movedNotificationStep
    rw [if_pos ⟨hthr, hne⟩, movedLoop_noFail]
  · intro userName moverId members lastMap now locationId nowIso h
    unfold movedNotificationStep
    rw [if_neg h]
  · intro userName moverId members lastMap now locationId nowIso now2 locationId2 nowIso2
      hthr hne hwin
    have h1 : (movedNotificationStep (fun _ => false) userName moverId members lastMap now
        locationId nowIso).1 = mapSet lastMap moverId now := by
      unfold movedNotificationStep
      rw [if_pos ⟨hthr, hne⟩]
    rw [h1]
    unfold movedNotificationStep
    rw [if_neg]
    intro hcontra
    rw [mapLookup_set_self] at hcontra
    exact absurd hcontra.1 (by simpa using hwin)

/-- C4 counterexample.  A ping arriving exactly 5 minutes (300000 ms)
after the stored `lastNotified` time, with a non-empty family: the claim's
`now − lastNotified >= 5 minutes` condition holds, yet the route creates no
"moved" notification and leaves `lastNotified` unchanged — the source gate is
strict (`>`), not `>=`. -/
theorem movedNotificationStep_boundary_counterexample :
    (movedNotificationStep (fun _ => false) "Ann" 1 [⟨2, "bob@example.com", none, none⟩]
        [(1, 1000000)] 1300000 7 "t0").2.1 = [] ∧
    (movedNotificationStep (fun _ => false) "Ann" 1 [⟨2, "bob@example.com", none, none⟩]
        [(1, 1000000)] 1300000 7 "t0").1 = [(1, 1000000)] ∧
    5 * 60 * 1000 ≤ 1300000 - 1000000 ∧
    ([(⟨2, "bob@example.com", none, none⟩ : User)] : List User) ≠ [] := by
  refine ⟨?_, ?_, by norm_num, by decide⟩ <;> decide

/-- C4 witness.  A first ping 400000 ms after epoch with no stored record
notifies the single family member and stamps the map; a second ping 200000 ms
later is inside the window and produces nothing. -/
theorem movedNotificationStep_throttle_witness :
    ((5 * 60 * 1000 < 400000 - (mapLookup ([] : List (Nat × Nat)) 1).getD 0) ∧
      ([(⟨2, "bob@example.com", none, none⟩ : User)] : List User) ≠ [] ∧
      (600000 - 400000 ≤ 5 * 60 * 1000)) ∧
    movedNotificationStep (fun _ => false) "Ann" 1 [⟨2, "bob@example.com", none, none⟩]
        [] 400000 7 "t0"
      = (mapSet ([] : List (Nat × Nat)) 1 400000,
         ([(⟨2, "bob@example.com", none, none⟩ : User)] : List User).map
           (mkMovedNotification "Ann" 1 7),
         ([(⟨2, "bob@example.com", none, none⟩ : User)] : List User).map
           (mkMovedBroadcast "Ann" "t0")) ∧
    (movedNotificationStep (fun _ => false) "Ann" 1 [⟨2, "bob@example.com", none, none⟩]
        (movedNotificationStep (fun _ => false) "Ann" 1 [⟨2, "bob@example.com", none, none⟩]
          [] 400000 7 "t0").1 600000 8 "t1").2.1 = [] :=
  ⟨⟨by decide, by decide, by decide⟩,
    movedNotificationStep_throttle.1 "Ann" 1 [⟨2, "bob@example.com", none, none⟩] [] 400000 7
      "t0" (by decide) (by decide),
    movedNotificationStep_throttle.2.2 "Ann" 1 [⟨2, "bob@example.com", none, none⟩] [] 400000
      7 "t0" 600000 8 "t1" (by decide) (by decide) (by decide)⟩

/-! ### The enter-"Home" scenario (C5) -/

/-- C5.  A mover `U` with exactly one family member `F` entering a place
named "Home" (with every storage call succeeding) creates exactly two
notification records: one for `F` with type `geofence_entered`, title
"Location Alert" and message "`{U.displayName}` has entered Home", and one
for `U` with message "You entered Home"; `displayName` resolves to the
mover's first name when present and non-blank, else to their email. -/
theorem sendGeofenceNotification_scenario (U F : User) (place : Place) (nowIso : String)
    (hname : place.name = "Home") :
    (sendGeofenceNotification (fun _ => false) (some U) [F] place GeoAction.entered
          nowIso).1
      = [{ userId := F.id
           type := "geofence_entered"
           title := "Location Alert"
           message := displayName U ++ " has entered Home"
           data := some (NotifData.geofence (some U.id) place.id place.name
             GeoAction.entered)
           isRead := false },
         { userId := U.id
           type := "geofence_entered"
           title := "Location Alert"
           message := "You entered Home"
           data := some (NotifData.geofence none place.id place.name GeoAction.entered)
           isRead := false }] ∧
    (∀ s, U.firstName = some s → s ≠ "" → displayName U = s) ∧
    (U.firstName = none → displayName U = U.email) := by
  refine ⟨?_, ?_, ?_⟩
  · have h1 : displayName U ++ " has " ++ actionString GeoAction.entered ++ " " ++ place.name
        = displayName U ++ " has entered Home" := by
      rw [hname]
      show displayName U ++ " has " ++ "entered" ++ " " ++ "Home" = _
      rw [String.append_assoc, String.append_assoc, String.append_assoc]
      congr 1
    have h2 : "You " ++ actionString GeoAction.entered ++ " " ++ place.name
        = "You entered Home" := by
      rw [hname]
      show "You " ++ "entered" ++ " " ++ "Home" = _
      decide
    have h3 : "geofence_" ++ actionString GeoAction.entered = "geofence_entered" := by
      decide
    simp [sendGeofenceNotification, createNotificationsLoop, mkFamilyGeofenceNotification,
      mkSelfGeofenceNotification, h1, h2, h3]
  · intro s hs hne
    rw [displayName, hs]
    simp [jsOr, hne]
  · intro hn
    rw [displayName, hn]
    rfl

/-- C5 witness.  Ann (id 1, family member Bob) enters "Home": Bob's record
reads "Ann has entered Home" and Ann's own reads "You entered Home". -/
theorem sendGeofenceNotification_scenario_witness :
    ((⟨5, "Home"⟩ : Place).name = "Home") ∧
    (sendGeofenceNotification (fun _ => false)
          (some ⟨1, "ann@example.com", some "Ann", none⟩)
          [⟨2, "bob@example.com", none, none⟩] ⟨5, "Home"⟩ GeoAction.entered "t0").1
      = [{ userId := (⟨2, "bob@example.com", none, none⟩ : User).id
           type := "geofence_entered"
           title := "Location Alert"
           message := displayName ⟨1, "ann@example.com", some "Ann", none⟩
             ++ " has entered Home"
           data := some (NotifData.geofence
             (some (⟨1, "ann@example.com", some "Ann", none⟩ : User).id)
             (⟨5, "Home"⟩ : Place).id (⟨5, "Home"⟩ : Place).name GeoAction.entered)
           isRead := false },
         { userId := (⟨1, "ann@example.com", some "Ann", none⟩ : User).id
           type := "geofence_entered"
           title := "Location Alert"
           message := "You entered Home"
           data := some (NotifData.geofence none (⟨5, "Home"⟩ : Place).id
             (⟨5, "Home"⟩ : Place).name GeoAction.entered)
           isRead := false }] ∧
    (∀ s, (⟨1, "ann@example.com", some "Ann", none⟩ : User).firstName = some s → s ≠ "" →
      displayName ⟨1, "ann@example.com", some "Ann", none⟩ = s) ∧
    ((⟨1, "ann@example.com", some "Ann", none⟩ : User).firstName = none →
      displayName ⟨1, "ann@example.com", some "Ann", none⟩
        = (⟨1, "ann@example.com", some "Ann", none⟩ : User).email) :=
  ⟨rfl, sendGeofenceNotification_scenario ⟨1, "ann@example.com", some "Ann", none⟩
    ⟨2, "bob@example.com", none, none⟩ ⟨5, "Home"⟩ "t0" rfl⟩

/-! ## History compaction (server/storage.ts, `getFamilyLocationHistory`)

The per-member filtering pass keeps an entry iff `lastIncludedTime === 0` or
the absolute difference to the last kept timestamp is at least
`oneHour * 0.75` (2700000 ms), updating `lastIncludedTime` on each keep,
starting from the sentinel `lastIncludedTime = 0`.  Timestamps are epoch
milliseconds. -/

/-- JS `Math.abs(locationTime - lastIncludedTime)` on epoch milliseconds. -/
def tsDiff (a b : Nat) : Nat := max a b - min a b

/-- The `forEach` body of the filtering pass, with `lastIncludedTime`
threaded explicitly (initially the sentinel `0`). -/
def filterHourlyGo (lastIncludedTime : Nat) : List Nat → List Nat
  | [] => []
  | t :: rest =>
    if lastIncludedTime = 0 ∨ 2700000 ≤ tsDiff t lastIncludedTime then
      t :: filterHourlyGo t rest
    else filterHourlyGo lastIncludedTime rest

/-- The per-member filtering pass of `getFamilyLocationHistory` on the
newest-first list of ping timestamps. -/
def filterHourlyLocations (timestamps : List Nat) : List Nat := filterHourlyGo 0 timestamps

/-- The compaction rule as the spec words it ("always keep the first entry,
then keep each subsequent entry iff its distance to the last kept timestamp
is at least 45 minutes"), for comparison with the code's sentinel-based
pass — subsequent entries, with `lastKept` threaded. -/
def claimCompactGo (lastKept : Nat) : List Nat → List Nat
  | [] => []
  | t :: rest =>
    if 2700000 ≤ tsDiff t lastKept then t :: claimCompactGo t rest
    else claimCompactGo lastKept rest

/-- The compaction rule as the spec words it: the first entry is always
kept. -/
def claimCompact : List Nat → List Nat
  | [] => []
  | t :: rest => t :: claimCompactGo t rest

theorem filterHourlyGo_eq_claimCompactGo (l : List Nat) (lastKept : Nat)
    (hlast : lastKept ≠ 0) (h : ∀ t ∈ l, t ≠ 0) :
    filterHourlyGo lastKept l = claimCompactGo lastKept l := by
  induction l generalizing lastKept with
  | nil => rfl
  | cons t rest ih =>
    have ht := h t (by simp)
    have hrest : ∀ x ∈ rest, x ≠ 0 := fun x hx => h x (by simp [hx])
    by_cases hd : 2700000 ≤ tsDiff t lastKept
    · rw [filterHourlyGo, claimCompactGo, if_pos (Or.inr hd), if_pos hd,
        ih t ht hrest]
    · rw [filterHourlyGo, claimCompactGo, if_neg ?hcond, if_neg hd,
        ih lastKept hlast hrest]
      intro hc
      rcases hc with hc | hc
      · exact hlast hc
      · exact hd hc

/-- C6 (amended).  On a list of pings whose timestamps are all non-zero
(every real ping after the epoch), the compaction keeps the first entry and
then keeps each subsequent entry iff the absolute difference to the last kept
timestamp is at least 45 minutes, updating the last kept timestamp on each
keep and preserving order; in particular the newest-first input
`[100, 50, 40, 10, 0]` (minutes, as milliseconds) yields `[100, 50, 0]`.
The restriction to non-zero timestamps is forced by the source's
`lastIncludedTime === 0` sentinel, which conflates a kept timestamp of
exactly `0` with "nothing kept yet". -/
theorem filterHourlyLocations_spec (timestamps : List Nat)
    (h : ∀ t ∈ timestamps, t ≠ 0) :
    filterHourlyLocations timestamps = claimCompact timestamps ∧
    filterHourlyLocations [6000000, 3000000, 2400000, 600000, 0]
      = [6000000, 3000000, 0] := by
  constructor
  · cases timestamps with
    | nil => rfl
    | cons t rest =>
      have ht := h t (by simp)
      rw [filterHourlyLocations, filterHourlyGo, if_pos (Or.inl rfl), claimCompact,
        filterHourlyGo_eq_claimCompactGo rest t ht (fun x hx => h x (by simp [hx]))]
  · decide

/-- C6 witness.  The spec's own worked example, all timestamps non-zero:
`[100, 50, 40, 10, 5]` minutes (newest first, in ms) keeps `[100, 50, 5]`
under both the code's pass and the spec's rule. -/
theorem filterHourlyLocations_spec_witness :
    (∀ t ∈ ([6000000, 3000000, 2400000, 600000, 300000] : List Nat), t ≠ 0) ∧
    filterHourlyLocations [6000000, 3000000, 2400000, 600000, 300000]
      = claimCompact [6000000, 3000000, 2400000, 600000, 300000] ∧
    filterHourlyLocations [6000000, 3000000, 2400000, 600000, 0]
      = [6000000, 3000000, 0] :=
  ⟨by decide,
    (filterHourlyLocations_spec [6000000, 3000000, 2400000, 600000, 300000] (by decide)).1,
    (filterHourlyLocations_spec [6000000, 3000000, 2400000, 600000, 300000] (by decide)).2⟩

/-- C6 counterexample.  Two pings both timestamped `0` (newest-first,
trivially): the claim's rule drops the second entry (`|0 − 0| = 0 < 45 min`),
but the code keeps it, because the kept timestamp `0` re-arms the
`lastIncludedTime === 0` sentinel. -/
theorem filterHourlyLocations_counterexample :
    filterHourlyLocations [0, 0] = [0, 0] ∧ claimCompact [0, 0] = [0] := by
  decide

/-! ## WebSocket broadcast (server/routes.ts, `broadcastNotification`)

The `clients` map (userId string → socket) is modelled as an association
list; a socket is reduced to whether its `readyState` is `OPEN`.  The hook
iterates over *every* registered client — there is no family filter — and
sends to each open socket. -/

/-- A registered WebSocket, reduced to its open/closed state. -/
structure WSClient where
  isOpen : Bool
deriving DecidableEq, Repr

/-- Source `global.broadcastNotification(notification)`: send the payload to every
registered client whose socket is open.  Returns the (userId, payload) sends
performed, in registry order. -/
def broadcastNotification {β : Type} (clients : List (String × WSClient))
    (notification : β) : List (String × β) :=
  clients.filterMap (fun c => if c.2.isOpen then some (c.1, notification) else none)

/-- C8.  The geofence-alert broadcast delivers the payload to every
currently registered open connection — the registry carries no family
information at all, so delivery is not scoped to the mover's family: the
sends are exactly one per open registered client, in registry order. -/
theorem broadcastNotification_all {β : Type} (clients : List (String × WSClient))
    (msg : β) :
    (∀ c ∈ clients, c.2.isOpen = true → (c.1, msg) ∈ broadcastNotification clients msg) ∧
    broadcastNotification clients msg
      = (clients.filter (fun c => c.2.isOpen)).map (fun c => (c.1, msg)) := by
  constructor
  · intro c hc hopen
    unfold broadcastNotification
    exact List.mem_filterMap.mpr ⟨c, hc, by rw [hopen]; rfl⟩
  · induction clients with
    | nil => rfl
    | cons c rest ih =>
      cases hc : c.2.isOpen <;>
        simp [broadcastNotification, List.filterMap_cons, List.filter_cons, hc] <;>
        simpa [broadcastNotification] using ih

/-- C8 witness.  A registry holding user "1" (open), user "2" (closed)
and user "3" (open): the broadcast reaches "1" and "3". -/
theorem broadcastNotification_all_witness :
    (∀ c ∈ ([("1", ⟨true⟩), ("2", ⟨false⟩), ("3", ⟨true⟩)] : List (String × WSClient)),
      c.2.isOpen = true →
      (c.1, (7 : Nat)) ∈ broadcastNotification
        ([("1", ⟨true⟩), ("2", ⟨false⟩), ("3", ⟨true⟩)] : List (String × WSClient))
        (7 : Nat)) ∧
    broadcastNotification
        ([("1", ⟨true⟩), ("2", ⟨false⟩), ("3", ⟨true⟩)] : List (String × WSClient))
        (7 : Nat)
      = [("1", 7), ("3", 7)] :=
  ⟨(broadcastNotification_all
      ([("1", ⟨true⟩), ("2", ⟨false⟩), ("3", ⟨true⟩)] : List (String × WSClient)) 7).1,
    by decide⟩

/-! ## Periodic background re-logging (server/locationLogger.ts)

`LocationLogger.logUserLocation` runs once per timer tick: it re-logs the
user's latest ping as an `automatic_hourly` entry unless the user is missing,
has location history disabled (a nullable boolean), has no ping at all, or
the latest ping is older than two hours. -/

/-- A stored location ping, as read back by `getUserLatestLocation`. -/
structure Location where
  userId : Nat
  latitude : ℝ
  longitude : ℝ
  accuracy : Option ℝ
  address : Option String
  type : String
  timestamp : Nat

/-- The argument of `storage.saveLocation` (no id/timestamp yet). -/
structure InsertLocation where
  userId : Nat
  latitude : ℝ
  longitude : ℝ
  accuracy : Option ℝ
  address : Option String
  type : String

/-- Source `logUserLocation(userId)`: given the results of `storage.getUser` and
`storage.getUserLatestLocation` and the clock, the `saveLocation` argument
created, or `none` when the run bails out. -/
def logUserLocation (userId : Nat) (userOpt : Option User) (latestOpt : Option Location)
    (now : Nat) : Option InsertLocation :=
  match userOpt with
  | none => none
  | some user =>
    if !(user.locationHistoryEnabled.getD false) then none
    else
      match latestOpt with
      | none => none
      | some latestLocation =>
        if latestLocation.timestamp < now - 2 * (60 * 60 * 1000) then none
        else some
          { userId := userId
            latitude := latestLocation.latitude
            longitude := latestLocation.longitude
            accuracy := latestLocation.accuracy
            address := latestLocation.address
            type := "automatic_hourly" }

/-- C10.  The background re-logging step creates a ping iff the user
exists with location history enabled, a latest ping exists, and that ping's
timestamp is within the last 2 hours; the created ping has type
`automatic_hourly` and copies latitude, longitude, accuracy and address from
the latest ping; in every other case nothing is created. -/
theorem logUserLocation_iff (userId : Nat) (userOpt : Option User)
    (latestOpt : Option Location) (now : Nat) :
    ∀ ins, logUserLocation userId userOpt latestOpt now = some ins ↔
      ∃ user latest, userOpt = some user ∧ user.locationHistoryEnabled = some true ∧
        latestOpt = some latest ∧ now - 2 * (60 * 60 * 1000) ≤ latest.timestamp ∧
        ins = { userId := userId
                latitude := latest.latitude
                longitude := latest.longitude
                accuracy := latest.accuracy
                address := latest.address
                type := "automatic_hourly" } := by
  intro ins
  cases userOpt with
  | none => simp [logUserLocation]
  | some user =>
    cases hen : user.locationHistoryEnabled with
    | none => simp [logUserLocation, hen]
    | some b =>
      cases b with
      | false => simp [logUserLocation, hen]
      | true =>
        cases latestOpt with
        | none => simp [logUserLocation, hen]
        | some latest =>
          by_cases hts : latest.timestamp < now - 2 * (60 * 60 * 1000)
          · constructor
            · intro h
              simp [logUserLocation, hen, hts] at h
            · rintro ⟨u, l, hu, hb, hl, hrecent, -⟩
              cases hu
              cases hl
              exact absurd hrecent (Nat.not_le.mpr hts)
          · constructor
            · intro h
              simp only [logUserLocation, hen, Option.getD_some, Bool.not_true,
                Bool.false_eq_true, if_false, if_neg hts] at h
              exact ⟨user, latest, rfl, hen, rfl, Nat.not_lt.mp hts,
                (Option.some_inj.mp h).symm⟩
            · rintro ⟨u, l, hu, hb, hl, hrecent, hins⟩
              cases hu
              cases hl
              simp [logUserLocation, hen, hts, hins]

end FamilyLocator
